import Mathlib

/-!
Verification of the task-orchestration and failure-containment layer of the
`service` package: error model (`errors.Is` chains), the `FilterErrors`
wrapper, the `Run` wrapping pipeline, the Options construction, the
`Service.Run` reporting policy, the `Main` exit codes, and the vendored
sentry client's `CaptureException` skip logic.
-/

set_option autoImplicit false

namespace Service

/-- Go error values as used by this package: plain errors (`errors.New`),
the two context sentinel errors, wrapping errors that carry an annotation
and expose an `Unwrap` chain, and the error a recovered panic is converted
to (its message derived from the panic payload). -/
inductive GoErr where
  | mk (name : String)
  | canceled
  | deadlineExceeded
  | wrap (msg : String) (inner : GoErr)
  | panicError (payload : String)
  deriving DecidableEq, Repr

/-- Go's `errors.Is(err, target)`: compare at each level of the `Unwrap`
chain, succeeding as soon as a level equals the target. -/
def errorsIs : GoErr → GoErr → Bool
  | .wrap m inner, target => decide (GoErr.wrap m inner = target) || errorsIs inner target
  | e, target => decide (e = target)

/-- The error message: `wrap` renders as `msg ++ ": " ++ inner` (the format
produced by `errors.Wrapf`), the context sentinels render with their Go
messages, and a recovered panic's message embeds the payload. -/
def errMsg : GoErr → String
  | .mk name => name
  | .canceled => "context canceled"
  | .deadlineExceeded => "context deadline exceeded"
  | .wrap msg inner => msg ++ ": " ++ errMsg inner
  | .panicError payload => "panic: " ++ payload

/-- Result of running one task under a fixed context: returned nil,
returned a non-nil error, or panicked with a payload. -/
inductive Outcome where
  | ok
  | errO (e : GoErr)
  | panicked (payload : String)
  deriving DecidableEq, Repr

/-- The loop inside `FilterErrors`: return true as soon as
`errors.Is(err, filteredError)` holds for one element of the filter list. -/
def matchesAny (e : GoErr) : List GoErr → Bool
  | [] => false
  | fe :: rest => errorsIs e fe || matchesAny e rest

/-- A task as built by the `Run` pipeline: the caller's bare function, or
one of the three wrappers applied to a task (`FilterErrors` from
service_run.go; `run.CatchPanic` and `run.LogErrors` from the spec's Panic
Guard and Logging Wrap components). A bare task is identified with its
outcome under the context `Run` hands it. -/
inductive TaskExpr where
  | base (o : Outcome)
  | filterErrors (t : TaskExpr) (filtered : List GoErr)
  | catchPanic (t : TaskExpr)
  | logErrors (t : TaskExpr)
  deriving DecidableEq, Repr

/-- Executing a wrapped task. `filterErrors` mirrors `FilterErrors` in
service_run.go: a nil result stays nil, an error matching the filter list
becomes nil, any other error passes through unchanged; a panic inside the
wrapped function propagates (the wrapper has no recover). `catchPanic` is
modelled from the spec: Panic Guard converts a recovered panic into an
error derived from the payload and changes nothing else. `logErrors` is
modelled from the spec: Logging Wrap returns the result unchanged. -/
def runExpr : TaskExpr → Outcome
  | .base o => o
  | .filterErrors t filtered =>
      match runExpr t with
      | .ok => .ok
      | .errO e => if matchesAny e filtered then .ok else .errO e
      | .panicked p => .panicked p
  | .catchPanic t =>
      match runExpr t with
      | .panicked p => .errO (.panicError p)
      | r => r
  | .logErrors t => runExpr t

/-- The non-nil errors that the `filterErrors` wrappers inside a task
expression actually inspect when the task runs (a panic escapes the
wrapped call before `FilterErrors` can look at any error). -/
def errorsReachingFilter : TaskExpr → List GoErr
  | .base _ => []
  | .filterErrors t _ =>
      errorsReachingFilter t ++
        (match runExpr t with
         | .errO e => [e]
         | _ => [])
  | .catchPanic t => errorsReachingFilter t
  | .logErrors t => errorsReachingFilter t

/-- The loop body of `Run` in service_run.go:
`run.LogErrors(run.CatchPanic(FilterErrors(fn, context.Canceled)))`. -/
def wrapTask (t : TaskExpr) : TaskExpr :=
  .logErrors (.catchPanic (.filterErrors t [.canceled]))

/-- The wrapping order asserted by the spec's §4.4:
`Logging Wrap(Error Filter(Panic Guard(task), "operation was cancelled"))`,
i.e. Panic Guard innermost. Stated for comparison with `wrapTask`, the
order the source actually uses. -/
def claimedWrapTask (t : TaskExpr) : TaskExpr :=
  .logErrors (.filterErrors (.catchPanic t) [.canceled])

/-- Nesting depth of the wrappers around the bare task. -/
def exprDepth : TaskExpr → Nat
  | .base _ => 0
  | .filterErrors t _ => exprDepth t + 1
  | .catchPanic t => exprDepth t + 1
  | .logErrors t => exprDepth t + 1

/-- The wrapping loop of `Run`: `funcs[i]` is overwritten with the wrapped
version of the old `funcs[i]`; the caller's backing slice after the loop is
modelled by the returned list. -/
def RunFuncs (funcs : List TaskExpr) : List TaskExpr :=
  funcs.map wrapTask

/-- Modelled from the spec: `run.CancelOnFirstFinishWait` (the
Cancel-On-First-Finish Runner of §4.3, from the external `bborbe/run`
dependency) returns the first-finishing task's result, identified here by
its index; with zero tasks it returns immediately with no error. -/
def cancelOnFirstFinishResult (funcs : List TaskExpr) (winner : Nat) : Outcome :=
  match funcs[winner]? with
  | some t => runExpr t
  | none => .ok

/-- `Run` from service_run.go: wrap every task in place, then hand the
wrapped slice to the runner. -/
def Run (funcs : List TaskExpr) (winner : Nat) : Outcome :=
  cancelOnFirstFinishResult (RunFuncs funcs) winner

/-- An exclusion predicate (`ExcludeError` / an element of
`sentry.ExcludeErrors`). -/
def ExcludeError : Type := GoErr → Bool

/-- The loop of `ExcludeErrors.IsExcluded` in service.go: true as soon as
one predicate accepts the error. -/
def IsExcluded (excludes : List ExcludeError) (e : GoErr) : Bool :=
  match excludes with
  | [] => false
  | ee :: rest => ee e || IsExcluded rest e

/-- The default `ExcludeErrors` built both by `NewService` in service.go
and by `NewOptions` in options.go: one predicate testing
`errors.Is(err, context.Canceled)` and one testing
`errors.Is(err, context.DeadlineExceeded)`. -/
def defaultExcludeErrors : List ExcludeError :=
  [fun err => errorsIs err .canceled,
   fun err => errorsIs err .deadlineExceeded]

/-- Modelled from the spec: `errors.Wrapf` from the external
`github.com/bborbe/errors` dependency wraps the original error with an
annotation while staying transparent to is-a matching (§4.5: "wrapping
must be transparent to error-identity checks"). -/
def Wrapf (msg : String) (e : GoErr) : GoErr :=
  .wrap msg e

/-- The Options-bearing `service.Run` in service.go (lines 122-136):
run the application; a nil result returns nil; an excluded error returns
nil without reporting; any other error is reported once via
`CaptureException` and returned wrapped with "application failed".
The first component lists the errors handed to `CaptureException`, the
second is the returned error (`none` = nil). -/
def serviceRun (excludes : List ExcludeError) (appResult : Option GoErr) :
    List GoErr × Option GoErr :=
  match appResult with
  | none => ([], none)
  | some err =>
      if IsExcluded excludes err then ([], none)
      else ([err], some (Wrapf "application failed" err))

/-- `Options` from options.go: the exclusion predicate sequence. -/
structure Options where
  excludeErrors : List ExcludeError

/-- A configuration function (`OptionsFn`); mutable access to the options
value is modelled by explicit state passing. -/
def OptionsFn : Type := Options → Options

/-- `NewOptions` from options.go: start from the default exclusion
predicates, then apply the configuration functions in argument order, each
seeing the result of the previous ones. -/
def NewOptions (fns : List OptionsFn) : Options :=
  fns.foldl (fun options fn => fn options) { excludeErrors := defaultExcludeErrors }

/-- `Main` from the service main file: check argument parsing first
(exit 4 on failure), then the presence of the sentryDSN argument (exit 3),
then sentry client construction (exit 2), then run the service (exit 1 on
error, 0 on success). The logging, timezone and signal wiring have no
effect on the exit code and are elided. -/
def Main (parseResult : Option GoErr) (sentryDSN : Option String)
    (clientResult : Except GoErr Unit) (runResult : Option GoErr) : Nat :=
  match parseResult with
  | some _ => 4
  | none =>
      match sentryDSN with
      | none => 3
      | some _ =>
          match clientResult with
          | .error _ => 2
          | .ok _ =>
              match runResult with
              | some _ => 1
              | none => 0

/-- `client.CaptureException` from the vendored sentry client: an error
matching `context.Canceled` or `context.DeadlineExceeded` under
`errors.Is` is skipped — nil event id, nothing forwarded to the underlying
sentry transport; every other error is forwarded and its event id
returned. `underlying` models `c.client.CaptureException`; the boolean
records whether the event was forwarded. -/
def CaptureException (underlying : GoErr → String) (err : GoErr) :
    Option String × Bool :=
  if errorsIs err .canceled || errorsIs err .deadlineExceeded then (none, false)
  else (some (underlying err), true)

/-! Helper lemmas shared by the claim theorems. -/

theorem errorsIs_self (e : GoErr) : errorsIs e e = true := by
  cases e <;> simp [errorsIs]

theorem errorsIs_wrap_of_inner {e target : GoErr} (m : String)
    (h : errorsIs e target = true) : errorsIs (.wrap m e) target = true := by
  simp [errorsIs, h]

theorem IsExcluded_default (e : GoErr) :
    IsExcluded defaultExcludeErrors e =
      (errorsIs e .canceled || errorsIs e .deadlineExceeded) := by
  simp [IsExcluded, defaultExcludeErrors]

theorem runExpr_wrapTask (t : TaskExpr) :
    runExpr (wrapTask t) =
      match runExpr t with
      | .ok => .ok
      | .errO e => if errorsIs e .canceled then .ok else .errO e
      | .panicked p => .errO (.panicError p) := by
  cases h : runExpr t with
  | ok => simp [wrapTask, runExpr, h]
  | errO e =>
      by_cases hc : errorsIs e .canceled = true
      · simp [wrapTask, runExpr, matchesAny, h, hc]
      · simp [wrapTask, runExpr, matchesAny, h, hc]
  | panicked p => simp [wrapTask, runExpr, h]

/-! Claim theorems. -/

/-- C1: with the default Options, a nil application result makes
service.Run return nil with no report; an application error matching the
default exclusion predicates (is-a cancellation or deadline-exceeded)
makes it return nil with zero reports; any other non-nil error is reported
exactly once and service.Run returns a non-nil error whose message
contains the substring "application failed". -/
theorem C1_serviceRun_default_policy :
    serviceRun defaultExcludeErrors none = ([], none) ∧
    (∀ e, (errorsIs e .canceled || errorsIs e .deadlineExceeded) = true →
      serviceRun defaultExcludeErrors (some e) = ([], none)) ∧
    (∀ e, (errorsIs e .canceled || errorsIs e .deadlineExceeded) = false →
      (serviceRun defaultExcludeErrors (some e)).1 = [e] ∧
      ∃ r, (serviceRun defaultExcludeErrors (some e)).2 = some r ∧
        ∃ pre post, (errMsg r).data =
          pre ++ (String.data "application failed") ++ post) := by
  refine ⟨rfl, ?_, ?_⟩
  · intro e he
    simp [serviceRun, IsExcluded_default, he]
  · intro e he
    have hex : IsExcluded defaultExcludeErrors e = false := by
      rw [IsExcluded_default]; exact he
    refine ⟨by simp [serviceRun, hex], Wrapf "application failed" e,
      by simp [serviceRun, hex], [], (": " ++ errMsg e).data, ?_⟩
    show (errMsg (GoErr.wrap "application failed" e)).data = _
    simp [errMsg, String.data_append]

/-- C1 witness: a cancellation error yields nil and zero reports; the
plain error "boom" is reported exactly once. -/
theorem C1_witness :
    serviceRun defaultExcludeErrors (some .canceled) = ([], none) ∧
    (serviceRun defaultExcludeErrors (some (.mk "boom"))).1 = [.mk "boom"] :=
  ⟨C1_serviceRun_default_policy.2.1 .canceled (by decide),
   (C1_serviceRun_default_policy.2.2 (.mk "boom") (by decide)).1⟩

/-- C2 counterexample: Run wraps a task as
logErrors (catchPanic (filterErrors task)), not as the claimed
logErrors (filterErrors (catchPanic task)); on a task panicking with
payload "boom" the panic-derived error never reaches the Error Filter in
the actual wrapping, while the claimed wrapping would hand it to the
filter. -/
theorem C2_counterexample :
    wrapTask (.base (.panicked "boom")) ≠ claimedWrapTask (.base (.panicked "boom")) ∧
    errorsReachingFilter (wrapTask (.base (.panicked "boom"))) = [] ∧
    errorsReachingFilter (claimedWrapTask (.base (.panicked "boom"))) =
      [.panicError "boom"] := by
  decide

/-- C2 (amended): each task is wrapped innermost to outermost as the Error
Filter for the cancellation error first, then the Panic Guard, then the
Logging Wrap; consequently an error produced by the Panic Guard from a
recovered panic does not pass through the Error Filter, and the wrapped
task returns it as-is. -/
theorem C2_wrap_order (t : TaskExpr) :
    wrapTask t = .logErrors (.catchPanic (.filterErrors t [.canceled])) ∧
    (∀ p, runExpr t = .panicked p →
      runExpr (wrapTask t) = .errO (.panicError p) ∧
      errorsReachingFilter (wrapTask t) = errorsReachingFilter t) := by
  refine ⟨rfl, ?_⟩
  intro p hp
  constructor
  · rw [runExpr_wrapTask, hp]
  · simp [wrapTask, errorsReachingFilter, hp]

/-- C2 witness: a task panicking with payload "pp" comes back from the
wrapping as the panic-derived error, and no error reached the filter. -/
theorem C2_witness :
    runExpr (wrapTask (.base (.panicked "pp"))) = .errO (.panicError "pp") ∧
    errorsReachingFilter (wrapTask (.base (.panicked "pp"))) = [] := by
  have h := (C2_wrap_order (.base (.panicked "pp"))).2 "pp" rfl
  exact ⟨h.1, h.2.trans rfl⟩

/-- C4: an error equal to or wrapping a filtered value matches under is-a
semantics, and FilterErrors yields nil when the wrapped function returns
nil or a matching error, and passes a non-matching error through
unchanged. -/
theorem C4_FilterErrors_behaviour :
    (∀ (m : String) (target : GoErr),
      errorsIs target target = true ∧ errorsIs (.wrap m target) target = true) ∧
    (∀ (t : TaskExpr) (filtered : List GoErr),
      (runExpr t = .ok → runExpr (.filterErrors t filtered) = .ok) ∧
      (∀ e, runExpr t = .errO e → matchesAny e filtered = true →
        runExpr (.filterErrors t filtered) = .ok) ∧
      (∀ e, runExpr t = .errO e → matchesAny e filtered = false →
        runExpr (.filterErrors t filtered) = .errO e)) := by
  constructor
  · intro m target
    exact ⟨errorsIs_self target, errorsIs_wrap_of_inner m (errorsIs_self target)⟩
  · intro t filtered
    refine ⟨?_, ?_, ?_⟩
    · intro h; simp [runExpr, h]
    · intro e h hm; simp [runExpr, h, hm]
    · intro e h hm; simp [runExpr, h, hm]

/-- C4 witness: with filter set {E1, E2}, a task returning E1 yields nil,
a task returning E3 yields E3 unchanged, a task returning nil yields nil;
and a wrapped E1 matches E1. -/
theorem C4_witness :
    runExpr (.filterErrors (.base (.errO (.mk "E1"))) [.mk "E1", .mk "E2"]) = .ok ∧
    runExpr (.filterErrors (.base (.errO (.mk "E3"))) [.mk "E1", .mk "E2"]) =
      .errO (.mk "E3") ∧
    runExpr (.filterErrors (.base .ok) [.mk "E1", .mk "E2"]) = .ok ∧
    errorsIs (.wrap "w" (.mk "E1")) (.mk "E1") = true :=
  ⟨(C4_FilterErrors_behaviour.2 (.base (.errO (.mk "E1"))) [.mk "E1", .mk "E2"]).2.1
      (.mk "E1") rfl (by decide),
   (C4_FilterErrors_behaviour.2 (.base (.errO (.mk "E3"))) [.mk "E1", .mk "E2"]).2.2
      (.mk "E3") rfl (by decide),
   (C4_FilterErrors_behaviour.2 (.base .ok) [.mk "E1", .mk "E2"]).1 rfl,
   (C4_FilterErrors_behaviour.1 "w" (.mk "E1")).2⟩

/-- C5: Run never lets a panic outcome escape to its caller, and when the
first-finishing task is one that panicked with payload p, Run returns the
non-nil error derived from p. -/
theorem C5_panic_containment (funcs : List TaskExpr) (winner : Nat) :
    (∀ q, Run funcs winner ≠ .panicked q) ∧
    (∀ t p, funcs[winner]? = some t → runExpr t = .panicked p →
      Run funcs winner = .errO (.panicError p)) := by
  constructor
  · intro q
    unfold Run cancelOnFirstFinishResult RunFuncs
    rw [List.getElem?_map]
    cases hg : funcs[winner]? with
    | none => simp
    | some t =>
        show runExpr (wrapTask t) ≠ _
        rw [runExpr_wrapTask]
        cases hr : runExpr t with
        | ok => simp
        | errO e =>
            by_cases hc : errorsIs e .canceled = true <;> simp [hc]
        | panicked p => simp
  · intro t p hg hp
    unfold Run cancelOnFirstFinishResult RunFuncs
    rw [List.getElem?_map, hg]
    show runExpr (wrapTask t) = _
    rw [runExpr_wrapTask, hp]

/-- C5 witness: a single task panicking with payload "w5" makes Run return
the panic-derived error. -/
theorem C5_witness :
    Run [.base (.panicked "w5")] 0 = .errO (.panicError "w5") :=
  (C5_panic_containment [.base (.panicked "w5")] 0).2 _ "w5" rfl rfl

/-- C6: for a non-excluded application error, service.Run returns an error
that still matches the original under is-a comparison — the
"application failed" wrapping is transparent to errors.Is. -/
theorem C6_wrap_transparency (e : GoErr)
    (h : IsExcluded defaultExcludeErrors e = false) :
    ∃ r, (serviceRun defaultExcludeErrors (some e)).2 = some r ∧
      errorsIs r e = true := by
  refine ⟨Wrapf "application failed" e, by simp [serviceRun, h], ?_⟩
  exact errorsIs_wrap_of_inner "application failed" (errorsIs_self e)

/-- C6 witness: the error "boom6" is not excluded, and the error returned
by service.Run for it still is-a-matches it. -/
theorem C6_witness :
    ∃ r, (serviceRun defaultExcludeErrors (some (.mk "boom6"))).2 = some r ∧
      errorsIs r (.mk "boom6") = true :=
  C6_wrap_transparency (.mk "boom6") (by decide)

/-- C7: NewOptions starts from exactly two default exclusion predicates —
is-a cancellation and is-a deadline-exceeded — and applies the
configuration functions in argument order, each one receiving the options
value produced by the previous ones, so a later function can replace or
extend the result of an earlier one. -/
theorem C7_NewOptions_defaults_and_order :
    (∃ p q, (NewOptions []).excludeErrors = [p, q] ∧
      (∀ e, p e = errorsIs e .canceled) ∧
      (∀ e, q e = errorsIs e .deadlineExceeded)) ∧
    (∀ (fns : List OptionsFn) (fn : OptionsFn),
      NewOptions (fns ++ [fn]) = fn (NewOptions fns)) := by
  constructor
  · exact ⟨_, _, rfl, fun e => rfl, fun e => rfl⟩
  · intro fns fn
    simp [NewOptions, List.foldl_append]

/-- C8: Main returns 0 on success, 1 on a failing service run, 2 on a
sentry client construction failure, 3 on a missing sentryDSN argument,
4 on an argument-parsing failure; no other codes occur; and the
argument-parsing check runs before the missing-DSN check. -/
theorem C8_Main_exit_codes :
    (∀ pe dsn c r, Main (some pe) dsn c r = 4) ∧
    (∀ c r, Main none none c r = 3) ∧
    (∀ d ce r, Main none (some d) (.error ce) r = 2) ∧
    (∀ d re, Main none (some d) (.ok ()) (some re) = 1) ∧
    (∀ d, Main none (some d) (.ok ()) none = 0) ∧
    (∀ pe c r, Main (some pe) none c r = 4) ∧
    (∀ p d c r, Main p d c r = 0 ∨ Main p d c r = 1 ∨ Main p d c r = 2 ∨
      Main p d c r = 3 ∨ Main p d c r = 4) := by
  refine ⟨fun pe dsn c r => rfl, fun c r => rfl, fun d ce r => rfl,
    fun d re => rfl, fun d => rfl, fun pe c r => rfl, ?_⟩
  intro p d c r
  cases p <;> cases d <;> cases c <;> cases r <;> simp [Main]

/-- C9: the vendored sentry client's CaptureException returns a nil event
id and forwards nothing for an error that is-a cancellation or
deadline-exceeded error, and forwards the event for every other error. -/
theorem C9_CaptureException_skips (underlying : GoErr → String) (e : GoErr) :
    ((errorsIs e .canceled || errorsIs e .deadlineExceeded) = true →
      CaptureException underlying e = (none, false)) ∧
    ((errorsIs e .canceled || errorsIs e .deadlineExceeded) = false →
      (CaptureException underlying e).2 = true) := by
  constructor
  · intro h; simp [CaptureException, h]
  · intro h; simp [CaptureException, h]

/-- C9 witness: an error wrapping context.Canceled is skipped; the plain
error "boom9" is forwarded. -/
theorem C9_witness :
    CaptureException (fun _ => "id") (.wrap "w" .canceled) = (none, false) ∧
    (CaptureException (fun _ => "id") (.mk "boom9")).2 = true :=
  ⟨(C9_CaptureException_skips (fun _ => "id") (.wrap "w" .canceled)).1 (by decide),
   (C9_CaptureException_skips (fun _ => "id") (.mk "boom9")).2 (by decide)⟩

/-- C10: after the wrapping loop of Run, the i-th element of the funcs
slice is the wrapped version of the old i-th element (and differs from
it), and the runner is invoked on exactly that mutated slice. -/
theorem C10_run_overwrites_funcs :
    (∀ (funcs : List TaskExpr) (i : Nat),
      (RunFuncs funcs)[i]? = (funcs[i]?).map wrapTask) ∧
    (∀ t, wrapTask t ≠ t) ∧
    (∀ funcs winner, Run funcs winner =
      cancelOnFirstFinishResult (RunFuncs funcs) winner) := by
  refine ⟨?_, ?_, fun funcs winner => rfl⟩
  · intro funcs i
    simp [RunFuncs]
  · intro t h
    have hd := congrArg exprDepth h
    simp [wrapTask, exprDepth] at hd
    omega

end Service
